import Mathlib

/-!
Shallow embedding of the core logic of `src/app.py` (shipping-management PoC):
the sample-data generator `generate_sample_data` and the optimization-page
cargo-mix computation, with the randomness and the clock made explicit.

Numeric faithfulness notes:

* Python integers are unbounded; they are embedded as `ℤ`.
* The cargo ratios in the source are the float literals 0.6, 0.4, 0.7, 0.3,
  0.55, 0.45, 0.0 — all multiples of 1/20 — and the tonnages are `int(x * r)`
  with `x` in the ranges the program realizes (total cargo between 53000 and
  60000 in the generator, capacity between 50000 and 70000 on the
  optimization page).  For these ranges the accumulated double-rounding error
  of `x * r` is below 3e-12, while the exact product is either an integer or
  at distance at least 0.05 from the nearest integer; and when the exact
  product is an integer m, the float product differs from m by less than half
  an ulp of m, so it rounds back to m exactly.  Hence `int(x * r)` computed
  by the source equals the exact `⌊x * r⌋`, and the ratios are embedded as
  exact rationals.
* Python `int()` truncates toward zero (`pyInt` below); on the non-negative
  values arising in the generator this coincides with the floor.
* `datetime.now()` is modelled as an explicit integer timestamp `now` counted
  in days, so `datetime.now() + timedelta(days=d)` becomes `now + d`.
* The process-global `random` module is modelled as an explicit stream of
  per-iteration draws (`Draw`): `random.choice` as a drawn index into the
  choice list, and `random.randint lo hi` as a drawn integer carrying the
  validity constraint `lo ≤ v ≤ hi`.
* On the optimization page, `total_revenue / ship_capacity` is only computed
  with `ship_capacity ≥ 50000` (the number-input lower bound), so the
  totalized rational division in the embedding agrees with the source there.
-/

namespace ShippingPoC

/-- Python `int()` on a rational: truncation toward zero. -/
def pyInt (q : ℚ) : ℤ := if 0 ≤ q then ⌊q⌋ else ⌈q⌉

/-- A ship record, shaped like the `ships_data` literals in
`generate_sample_data`. -/
structure Ship where
  ship_id : String
  ship_name : String
  capacity : ℤ
  status : String
deriving Repr, DecidableEq

/-- The fixed ship catalog (`ships_data`, `src/app.py` lines 21–26). -/
def ships_data : List Ship :=
  [⟨"BULK_001", "海王丸", 60000, "航海中"⟩,
   ⟨"BULK_002", "大洋丸", 58000, "荷役中"⟩,
   ⟨"BULK_003", "太平丸", 62000, "沖待ち"⟩,
   ⟨"BULK_004", "東海丸", 59000, "入港準備"⟩]

/-- A cargo-mix template; the source's float ratios are embedded as exact
rationals (see the header note). -/
structure CargoPattern where
  pattern : String
  corn_ratio : ℚ
  milo_ratio : ℚ
  barley_ratio : ℚ
deriving Repr, DecidableEq

/-- The fixed pattern list (`cargo_patterns`, `src/app.py` lines 30–34). -/
def cargo_patterns : List CargoPattern :=
  [⟨"CORN+MILO", 6/10, 4/10, 0⟩,
   ⟨"CORN+BARLEY", 7/10, 0, 3/10⟩,
   ⟨"MILO+BARLEY", 0, 55/100, 45/100⟩]

/-- The loading-port choice list (`src/app.py` line 49). -/
def loading_ports : List String := ["Seattle", "Vancouver", "New Orleans"]

/-- The discharge-port choice list (`src/app.py` line 51). -/
def discharge_choices : List (List String) :=
  [["CHIBA"], ["YOKOHAMA"], ["CHIBA", "NAGOYA"], ["YOKOHAMA", "CHIBA"]]

/-- The randomness one iteration of the `generate_sample_data` loop consumes:
a pattern choice, the slack, a loading-port choice, the ETA day offset, and a
discharge-combination choice. -/
structure Draw where
  patternIdx : ℕ
  slack : ℤ
  portIdx : ℕ
  days : ℤ
  dischargeIdx : ℕ
deriving Repr, DecidableEq

/-- Validity of a draw: each drawn value lies in the range the corresponding
`random.choice` / `random.randint` call produces. -/
def Draw.valid (d : Draw) : Bool :=
  decide (d.patternIdx < 3) && decide (2000 ≤ d.slack) && decide (d.slack ≤ 5000) &&
  decide (d.portIdx < 3) && decide (1 ≤ d.days) && decide (d.days ≤ 10) &&
  decide (d.dischargeIdx < 4)

/-- Fallback pattern for the total list lookup; never reached on valid draws. -/
def defaultPattern : CargoPattern := ⟨"", 0, 0, 0⟩

/-- The cargo pattern a draw selects (`random.choice(cargo_patterns)`). -/
def Draw.pattern (d : Draw) : CargoPattern :=
  cargo_patterns.getD d.patternIdx defaultPattern

/-- A voyage record, fields as assembled in `src/app.py` lines 40–52. -/
structure Voyage where
  voyage_id : String
  ship_name : String
  ship_status : String
  total_cargo : ℤ
  cargo_pattern : String
  corn_tons : ℤ
  milo_tons : ℤ
  barley_tons : ℤ
  loading_port : String
  eta : ℤ
  discharge_ports : List String
deriving Repr, DecidableEq

/-- Zero-padded decimal with minimum width 3, Python format `:03d`. -/
def pad3 (n : ℕ) : String :=
  if n < 10 then "00" ++ toString n
  else if n < 100 then "0" ++ toString n
  else toString n

/-- Body of the `for i, ship in enumerate(ships_data)` loop
(`src/app.py` lines 36–53). -/
def makeVoyage (now : ℤ) (i : ℕ) (ship : Ship) (d : Draw) : Voyage :=
  let total_cargo : ℤ := ship.capacity - d.slack
  { voyage_id := "V2024" ++ pad3 (i + 1)
    ship_name := ship.ship_name
    ship_status := ship.status
    total_cargo := total_cargo
    cargo_pattern := d.pattern.pattern
    corn_tons := pyInt ((total_cargo : ℚ) * d.pattern.corn_ratio)
    milo_tons := pyInt ((total_cargo : ℚ) * d.pattern.milo_ratio)
    barley_tons := pyInt ((total_cargo : ℚ) * d.pattern.barley_ratio)
    loading_port := loading_ports.getD d.portIdx ""
    eta := now + d.days
    discharge_ports := discharge_choices.getD d.dischargeIdx [] }

/-- The enumerated generation loop over the remaining catalog, with `i` the
index of its first element. -/
def generateVoyagesFrom (now : ℤ) (draws : ℕ → Draw) : ℕ → List Ship → List Voyage
  | _, [] => []
  | i, ship :: rest =>
      makeVoyage now i ship (draws i) :: generateVoyagesFrom now draws (i + 1) rest

/-- The voyage-generation loop of `generate_sample_data`, over an arbitrary
catalog (the source runs it on `ships_data`). -/
def generateVoyages (now : ℤ) (catalog : List Ship) (draws : ℕ → Draw) : List Voyage :=
  generateVoyagesFrom now draws 0 catalog

/-- `generate_sample_data` (`src/app.py` lines 17–55): the ship table and the
voyage table, as lists of records. -/
def generate_sample_data (now : ℤ) (draws : ℕ → Draw) : List Ship × List Voyage :=
  (ships_data, generateVoyages now ships_data draws)

/-- Result of the optimization-page computation; fields from `src/app.py`
lines 212–220 (tonnages, total revenue), 234 (average unit price) and 244
(per-commodity revenues). -/
structure MixResult where
  corn_tons : ℤ
  milo_tons : ℤ
  barley_tons : ℤ
  corn_revenue : ℚ
  milo_revenue : ℚ
  barley_revenue : ℚ
  total_revenue : ℚ
  average_unit_price : ℚ
deriving Repr, DecidableEq

/-- The cargo-mix computation of `show_optimization_sim` (`src/app.py` lines
198 and 212–234): derived barley ratio, truncated tonnages, revenues, and the
average unit price. -/
def computeMix (ship_capacity : ℤ)
    (corn_ratio milo_ratio corn_price milo_price barley_price : ℚ) : MixResult :=
  let barley_ratio : ℚ := 1 - corn_ratio - milo_ratio
  let corn_tons := pyInt ((ship_capacity : ℚ) * corn_ratio)
  let milo_tons := pyInt ((ship_capacity : ℚ) * milo_ratio)
  let barley_tons := pyInt ((ship_capacity : ℚ) * barley_ratio)
  let corn_revenue := (corn_tons : ℚ) * corn_price
  let milo_revenue := (milo_tons : ℚ) * milo_price
  let barley_revenue := (barley_tons : ℚ) * barley_price
  let total_revenue := corn_revenue + milo_revenue + barley_revenue
  { corn_tons := corn_tons
    milo_tons := milo_tons
    barley_tons := barley_tons
    corn_revenue := corn_revenue
    milo_revenue := milo_revenue
    barley_revenue := barley_revenue
    total_revenue := total_revenue
    average_unit_price := total_revenue / (ship_capacity : ℚ) }

/-- One click of the optimization button with its random decorative
efficiency score (`src/app.py` lines 212–238): the `randSource` argument
models the `random.randint(75, 95)` draw consumed for the score, which is the
only random input of the block. -/
def optimizationStep (ship_capacity : ℤ)
    (corn_ratio milo_ratio corn_price milo_price barley_price : ℚ)
    (randSource : ℕ → ℤ) : MixResult × ℤ :=
  (computeMix ship_capacity corn_ratio milo_ratio corn_price milo_price barley_price,
   randSource 0)

/-- Error type of the spec's Calculator contract. -/
inductive CalcError where
  | invalidRatio
deriving Repr, DecidableEq

/-- Modelled from the spec: the Calculator contract of §4.2 demands an
`InvalidRatioError` when the derived barley ratio is negative beyond a 1e-9
tolerance.  The source contains no such check; this definition follows the
spec's words and exists only to be compared against `computeMix`. -/
def computeMixChecked (ship_capacity : ℤ)
    (corn_ratio milo_ratio corn_price milo_price barley_price : ℚ) :
    Except CalcError MixResult :=
  if 1 - corn_ratio - milo_ratio < -(1 / 1000000000 : ℚ) then .error .invalidRatio
  else .ok (computeMix ship_capacity corn_ratio milo_ratio corn_price milo_price barley_price)

/-- A voyage with its `eta` field cleared, used to compare the
clock-independent fields of two runs. -/
def eraseEta (v : Voyage) : Voyage := { v with eta := 0 }

/-- A fixed valid draw stream used for concrete instantiations. -/
def sampleDraws : ℕ → Draw := fun _ => ⟨0, 3000, 0, 5, 0⟩

lemma sampleDraws_valid (j : ℕ) : (sampleDraws j).valid = true := rfl

lemma pyInt_of_nonneg (q : ℚ) (h : 0 ≤ q) : pyInt q = ⌊q⌋ := if_pos h

lemma pyInt_intCast (z : ℤ) : pyInt (z : ℚ) = z := by
  unfold pyInt
  split
  · exact Int.floor_intCast z
  · exact Int.ceil_intCast z

lemma pyInt_eval (q : ℚ) (z : ℤ) (h0 : 0 ≤ z) (h1 : (z : ℚ) ≤ q) (h2 : q < z + 1) :
    pyInt q = z := by
  have hq : 0 ≤ q := le_trans (by exact_mod_cast h0) h1
  rw [pyInt_of_nonneg q hq]
  exact Int.floor_eq_iff.mpr ⟨h1, h2⟩

lemma Draw.valid_iff (d : Draw) : d.valid = true ↔
    d.patternIdx < 3 ∧ 2000 ≤ d.slack ∧ d.slack ≤ 5000 ∧ d.portIdx < 3 ∧
    1 ≤ d.days ∧ d.days ≤ 10 ∧ d.dischargeIdx < 4 := by
  simp [Draw.valid, and_assoc]

lemma pattern_mem_of_valid (d : Draw) (h : d.valid = true) :
    d.pattern ∈ cargo_patterns := by
  have hlt : d.patternIdx < 3 := ((Draw.valid_iff d).mp h).1
  unfold Draw.pattern
  interval_cases h : d.patternIdx <;> simp [cargo_patterns]

lemma cargo_patterns_ratios {p : CargoPattern} (hp : p ∈ cargo_patterns) :
    0 ≤ p.corn_ratio ∧ p.corn_ratio ≤ 1 ∧ 0 ≤ p.milo_ratio ∧ p.milo_ratio ≤ 1 ∧
    0 ≤ p.barley_ratio ∧ p.barley_ratio ≤ 1 ∧
    p.corn_ratio + p.milo_ratio + p.barley_ratio = 1 := by
  simp only [cargo_patterns, List.mem_cons, List.mem_singleton, List.not_mem_nil,
    or_false] at hp
  rcases hp with rfl | rfl | rfl <;> norm_num

lemma generateVoyagesFrom_length (now : ℤ) (draws : ℕ → Draw) :
    ∀ (catalog : List Ship) (i0 : ℕ),
      (generateVoyagesFrom now draws i0 catalog).length = catalog.length := by
  intro catalog
  induction catalog with
  | nil => intro i0; rfl
  | cons s rest ih =>
      intro i0
      simp [generateVoyagesFrom, ih (i0 + 1)]

lemma generateVoyagesFrom_getElem (now : ℤ) (draws : ℕ → Draw) :
    ∀ (catalog : List Ship) (i0 k : ℕ),
      (generateVoyagesFrom now draws i0 catalog)[k]?
        = (catalog[k]?).map (fun s => makeVoyage now (i0 + k) s (draws (i0 + k))) := by
  intro catalog
  induction catalog with
  | nil => intro i0 k; simp [generateVoyagesFrom]
  | cons s rest ih =>
      intro i0 k
      cases k with
      | zero => simp [generateVoyagesFrom]
      | succ k =>
          have h : i0 + (k + 1) = (i0 + 1) + k := by omega
          simp only [generateVoyagesFrom, List.getElem?_cons_succ]
          rw [h, ih (i0 + 1) k]

lemma generateVoyages_getElem (now : ℤ) (catalog : List Ship) (draws : ℕ → Draw) (k : ℕ) :
    (generateVoyages now catalog draws)[k]?
      = (catalog[k]?).map (fun s => makeVoyage now k s (draws k)) := by
  unfold generateVoyages
  have := generateVoyagesFrom_getElem now draws catalog 0 k
  simpa using this

lemma generate_voyage_shape (now : ℤ) (draws : ℕ → Draw) (i : ℕ) (v : Voyage)
    (hvi : (generate_sample_data now draws).2[i]? = some v) :
    ∃ ship, ships_data[i]? = some ship ∧ v = makeVoyage now i ship (draws i) := by
  rw [show (generate_sample_data now draws).2 = generateVoyages now ships_data draws from rfl,
    generateVoyages_getElem] at hvi
  cases hs : ships_data[i]? with
  | none => rw [hs] at hvi; simp at hvi
  | some ship =>
      rw [hs] at hvi
      simp only [Option.map_some', Option.some_inj] at hvi
      exact ⟨ship, rfl, hvi.symm⟩

lemma ships_data_capacity (i : ℕ) (ship : Ship) (hi : ships_data[i]? = some ship) :
    58000 ≤ ship.capacity ∧ ship.capacity ≤ 62000 := by
  match i with
  | 0 => simp only [ships_data, List.getElem?_cons_zero, Option.some_inj] at hi
         rw [← hi]; norm_num
  | 1 => simp only [ships_data, List.getElem?_cons_succ, List.getElem?_cons_zero,
           Option.some_inj] at hi
         rw [← hi]; norm_num
  | 2 => simp only [ships_data, List.getElem?_cons_succ, List.getElem?_cons_zero,
           Option.some_inj] at hi
         rw [← hi]; norm_num
  | 3 => simp only [ships_data, List.getElem?_cons_succ, List.getElem?_cons_zero,
           Option.some_inj] at hi
         rw [← hi]; norm_num
  | (n + 4) => simp [ships_data] at hi

lemma pyInt_mul_bounds (tc : ℤ) (r : ℚ) (htc : 0 ≤ tc) (hr0 : 0 ≤ r) (hr1 : r ≤ 1) :
    0 ≤ pyInt ((tc : ℚ) * r) ∧ pyInt ((tc : ℚ) * r) ≤ tc := by
  have htc' : (0 : ℚ) ≤ (tc : ℚ) := by exact_mod_cast htc
  have hq : 0 ≤ (tc : ℚ) * r := mul_nonneg htc' hr0
  rw [pyInt_of_nonneg _ hq]
  refine ⟨Int.floor_nonneg.mpr hq, ?_⟩
  have hle : (tc : ℚ) * r ≤ (tc : ℚ) := by
    calc (tc : ℚ) * r ≤ (tc : ℚ) * 1 := by
          exact mul_le_mul_of_nonneg_left hr1 htc'
      _ = (tc : ℚ) := mul_one _
  calc ⌊(tc : ℚ) * r⌋ ≤ ⌊(tc : ℚ)⌋ := Int.floor_le_floor hle
    _ = tc := Int.floor_intCast tc

lemma makeVoyage_total_cargo (now : ℤ) (i : ℕ) (ship : Ship) (d : Draw) :
    (makeVoyage now i ship d).total_cargo = ship.capacity - d.slack := rfl

lemma makeVoyage_corn_tons (now : ℤ) (i : ℕ) (ship : Ship) (d : Draw) :
    (makeVoyage now i ship d).corn_tons
      = pyInt (((ship.capacity - d.slack : ℤ) : ℚ) * d.pattern.corn_ratio) := rfl

lemma makeVoyage_milo_tons (now : ℤ) (i : ℕ) (ship : Ship) (d : Draw) :
    (makeVoyage now i ship d).milo_tons
      = pyInt (((ship.capacity - d.slack : ℤ) : ℚ) * d.pattern.milo_ratio) := rfl

lemma makeVoyage_barley_tons (now : ℤ) (i : ℕ) (ship : Ship) (d : Draw) :
    (makeVoyage now i ship d).barley_tons
      = pyInt (((ship.capacity - d.slack : ℤ) : ℚ) * d.pattern.barley_ratio) := rfl

lemma makeVoyage_eta (now : ℤ) (i : ℕ) (ship : Ship) (d : Draw) :
    (makeVoyage now i ship d).eta = now + d.days := rfl

/-- The first catalog ship, named for concrete instantiations. -/
def sampleShip0 : Ship := ⟨"BULK_001", "海王丸", 60000, "航海中"⟩

/-- C1: for every generated voyage, the total cargo equals the referenced
ship's capacity minus the drawn slack, and the drawn slack lies in the closed
range [2000, 5000]. -/
theorem C1_total_cargo_is_capacity_minus_slack (now : ℤ) (draws : ℕ → Draw)
    (hv : ∀ j, (draws j).valid = true) (i : ℕ) (ship : Ship)
    (hi : ships_data[i]? = some ship) :
    ((generate_sample_data now draws).2[i]?).map Voyage.total_cargo
        = some (ship.capacity - (draws i).slack)
    ∧ 2000 ≤ (draws i).slack ∧ (draws i).slack ≤ 5000 := by
  have hd := (Draw.valid_iff (draws i)).mp (hv i)
  refine ⟨?_, hd.2.1, hd.2.2.1⟩
  rw [show (generate_sample_data now draws).2 = generateVoyages now ships_data draws from rfl,
    generateVoyages_getElem, hi]
  simp [makeVoyage_total_cargo]

/-- Witness for C1: the first catalog ship with the fixed sample draws,
slack 3000, total cargo 60000 − 3000 = 57000. -/
theorem C1_witness :
    ((generate_sample_data 0 sampleDraws).2[0]?).map Voyage.total_cargo = some 57000
    ∧ 2000 ≤ (sampleDraws 0).slack ∧ (sampleDraws 0).slack ≤ 5000 := by
  have h := C1_total_cargo_is_capacity_minus_slack 0 sampleDraws sampleDraws_valid 0
    sampleShip0 rfl
  simpa [sampleShip0] using h

/-- C3: every generated voyage's commodity tonnages lie between 0 and the
total cargo, and the total cargo is at most the referenced ship's capacity. -/
theorem C3_tonnage_and_cargo_bounds (now : ℤ) (draws : ℕ → Draw)
    (hv : ∀ j, (draws j).valid = true) (i : ℕ) (ship : Ship) (v : Voyage)
    (hi : ships_data[i]? = some ship)
    (hvi : (generate_sample_data now draws).2[i]? = some v) :
    (0 ≤ v.corn_tons ∧ v.corn_tons ≤ v.total_cargo)
    ∧ (0 ≤ v.milo_tons ∧ v.milo_tons ≤ v.total_cargo)
    ∧ (0 ≤ v.barley_tons ∧ v.barley_tons ≤ v.total_cargo)
    ∧ v.total_cargo ≤ ship.capacity := by
  obtain ⟨ship', hi', rfl⟩ := generate_voyage_shape now draws i v hvi
  have heq : ship = ship' := by rw [hi] at hi'; exact Option.some_inj.mp hi'
  subst heq
  have hd := (Draw.valid_iff (draws i)).mp (hv i)
  have hcap := ships_data_capacity i ship hi
  have hp := cargo_patterns_ratios (pattern_mem_of_valid (draws i) (hv i))
  have htc : (0 : ℤ) ≤ ship.capacity - (draws i).slack := by omega
  have h1 := pyInt_mul_bounds (ship.capacity - (draws i).slack)
    ((draws i).pattern.corn_ratio) htc hp.1 hp.2.1
  have h2 := pyInt_mul_bounds (ship.capacity - (draws i).slack)
    ((draws i).pattern.milo_ratio) htc hp.2.2.1 hp.2.2.2.1
  have h3 := pyInt_mul_bounds (ship.capacity - (draws i).slack)
    ((draws i).pattern.barley_ratio) htc hp.2.2.2.2.1 hp.2.2.2.2.2.1
  rw [makeVoyage_corn_tons, makeVoyage_milo_tons, makeVoyage_barley_tons,
    makeVoyage_total_cargo]
  refine ⟨⟨h1.1, h1.2⟩, ⟨h2.1, h2.2⟩, ⟨h3.1, h3.2⟩, by omega⟩

/-- Witness for C3: the voyage generated for the first catalog ship with the
fixed sample draws. -/
theorem C3_witness :
    (0 ≤ (makeVoyage 0 0 sampleShip0 (sampleDraws 0)).corn_tons
      ∧ (makeVoyage 0 0 sampleShip0 (sampleDraws 0)).corn_tons
          ≤ (makeVoyage 0 0 sampleShip0 (sampleDraws 0)).total_cargo)
    ∧ (0 ≤ (makeVoyage 0 0 sampleShip0 (sampleDraws 0)).milo_tons
      ∧ (makeVoyage 0 0 sampleShip0 (sampleDraws 0)).milo_tons
          ≤ (makeVoyage 0 0 sampleShip0 (sampleDraws 0)).total_cargo)
    ∧ (0 ≤ (makeVoyage 0 0 sampleShip0 (sampleDraws 0)).barley_tons
      ∧ (makeVoyage 0 0 sampleShip0 (sampleDraws 0)).barley_tons
          ≤ (makeVoyage 0 0 sampleShip0 (sampleDraws 0)).total_cargo)
    ∧ (makeVoyage 0 0 sampleShip0 (sampleDraws 0)).total_cargo ≤ sampleShip0.capacity :=
  C3_tonnage_and_cargo_bounds 0 sampleDraws sampleDraws_valid 0 sampleShip0
    (makeVoyage 0 0 sampleShip0 (sampleDraws 0)) rfl rfl

/-- C4: over any catalog the generation loop yields exactly one voyage per
ship, in catalog order, and the voyage at index i carries
voyage id "V2024" followed by the 3-digit zero-padded sequence number i+1 and
the name of the ship at the same index. -/
theorem C4_one_voyage_per_ship_in_order (now : ℤ) (draws : ℕ → Draw)
    (catalog : List Ship) :
    (generateVoyages now catalog draws).length = catalog.length
    ∧ ∀ (i : ℕ) (ship : Ship), catalog[i]? = some ship →
        ((generateVoyages now catalog draws)[i]?).map Voyage.voyage_id
          = some ("V2024" ++ pad3 (i + 1))
        ∧ ((generateVoyages now catalog draws)[i]?).map Voyage.ship_name
          = some ship.ship_name := by
  refine ⟨generateVoyagesFrom_length now draws catalog 0, ?_⟩
  intro i ship hi
  rw [generateVoyages_getElem, hi]
  exact ⟨rfl, rfl⟩

/-- Witness for C4: the real catalog; the first voyage id evaluates to
V2024001. -/
theorem C4_witness :
    (generateVoyages 0 ships_data sampleDraws).length = ships_data.length
    ∧ ((generateVoyages 0 ships_data sampleDraws)[0]?).map Voyage.voyage_id
        = some "V2024001" := by
  have h := C4_one_voyage_per_ship_in_order 0 sampleDraws ships_data
  refine ⟨h.1, ?_⟩
  have h2 := (h.2 0 sampleShip0 rfl).1
  have e : "V2024" ++ pad3 (0 + 1) = "V2024001" := rfl
  rw [e] at h2
  exact h2

/-- C10: every cargo pattern in the catalog has non-negative ratios summing
to exactly 1, and consequently the three truncated tonnages of every
generated voyage sum to at most the total cargo. -/
theorem C10_tonnage_sum_at_most_total (now : ℤ) (draws : ℕ → Draw)
    (hv : ∀ j, (draws j).valid = true) (i : ℕ) (v : Voyage)
    (hvi : (generate_sample_data now draws).2[i]? = some v) :
    (∀ p ∈ cargo_patterns,
        0 ≤ p.corn_ratio ∧ 0 ≤ p.milo_ratio ∧ 0 ≤ p.barley_ratio ∧
        p.corn_ratio + p.milo_ratio + p.barley_ratio = 1)
    ∧ v.corn_tons + v.milo_tons + v.barley_tons ≤ v.total_cargo := by
  have hpat : ∀ p ∈ cargo_patterns,
      0 ≤ p.corn_ratio ∧ 0 ≤ p.milo_ratio ∧ 0 ≤ p.barley_ratio ∧
      p.corn_ratio + p.milo_ratio + p.barley_ratio = 1 := by
    intro p hp
    obtain ⟨h1, _, h2, _, h3, _, h4⟩ := cargo_patterns_ratios hp
    exact ⟨h1, h2, h3, h4⟩
  refine ⟨hpat, ?_⟩
  obtain ⟨ship, hi, rfl⟩ := generate_voyage_shape now draws i v hvi
  have hd := (Draw.valid_iff (draws i)).mp (hv i)
  have hcap := ships_data_capacity i ship hi
  have htc : (0 : ℤ) ≤ ship.capacity - (draws i).slack := by omega
  obtain ⟨ha, hb, hc, hsum⟩ := hpat _ (pattern_mem_of_valid (draws i) (hv i))
  rw [makeVoyage_corn_tons, makeVoyage_milo_tons, makeVoyage_barley_tons,
    makeVoyage_total_cargo]
  set tc : ℤ := ship.capacity - (draws i).slack with htcdef
  have htc' : (0 : ℚ) ≤ (tc : ℚ) := by exact_mod_cast htc
  rw [pyInt_of_nonneg _ (mul_nonneg htc' ha), pyInt_of_nonneg _ (mul_nonneg htc' hb),
    pyInt_of_nonneg _ (mul_nonneg htc' hc)]
  have hsum' : (tc : ℚ) * (draws i).pattern.corn_ratio
      + (tc : ℚ) * (draws i).pattern.milo_ratio
      + (tc : ℚ) * (draws i).pattern.barley_ratio = (tc : ℚ) := by
    rw [← mul_add, ← mul_add, hsum, mul_one]
  have hcast : ((⌊(tc : ℚ) * (draws i).pattern.corn_ratio⌋
      + ⌊(tc : ℚ) * (draws i).pattern.milo_ratio⌋
      + ⌊(tc : ℚ) * (draws i).pattern.barley_ratio⌋ : ℤ) : ℚ) ≤ (tc : ℚ) := by
    push_cast
    have f1 := Int.floor_le ((tc : ℚ) * (draws i).pattern.corn_ratio)
    have f2 := Int.floor_le ((tc : ℚ) * (draws i).pattern.milo_ratio)
    have f3 := Int.floor_le ((tc : ℚ) * (draws i).pattern.barley_ratio)
    linarith
  exact_mod_cast hcast

/-- Witness for C10: the voyage generated for the first catalog ship with the
fixed sample draws. -/
theorem C10_witness :
    (∀ p ∈ cargo_patterns,
        0 ≤ p.corn_ratio ∧ 0 ≤ p.milo_ratio ∧ 0 ≤ p.barley_ratio ∧
        p.corn_ratio + p.milo_ratio + p.barley_ratio = 1)
    ∧ (makeVoyage 0 0 sampleShip0 (sampleDraws 0)).corn_tons
        + (makeVoyage 0 0 sampleShip0 (sampleDraws 0)).milo_tons
        + (makeVoyage 0 0 sampleShip0 (sampleDraws 0)).barley_tons
        ≤ (makeVoyage 0 0 sampleShip0 (sampleDraws 0)).total_cargo :=
  C10_tonnage_sum_at_most_total 0 sampleDraws sampleDraws_valid 0
    (makeVoyage 0 0 sampleShip0 (sampleDraws 0)) rfl

/-- The second catalog ship, named for concrete instantiations. -/
def sampleShip1 : Ship := ⟨"BULK_002", "大洋丸", 58000, "荷役中"⟩

/-- A valid draw stream choosing the MILO+BARLEY pattern with slack 4999, so
the second ship gets total cargo 53001, on which the truncated tonnages sum
to 53000 only. -/
def shortfallDraws : ℕ → Draw := fun _ => ⟨2, 4999, 0, 5, 0⟩

lemma shortfallDraws_valid (j : ℕ) : (shortfallDraws j).valid = true := rfl

/-- C2: each commodity tonnage of every generated voyage is the floor of the
total cargo times the corresponding ratio of the chosen pattern, and the
three truncations are independent: a concretely generated voyage exists whose
tonnages do not sum to the total cargo. -/
theorem C2_tonnages_are_floors :
    (∀ (now : ℤ) (draws : ℕ → Draw), (∀ j, (draws j).valid = true) →
      ∀ (i : ℕ) (v : Voyage), (generate_sample_data now draws).2[i]? = some v →
        v.corn_tons = ⌊(v.total_cargo : ℚ) * (draws i).pattern.corn_ratio⌋
        ∧ v.milo_tons = ⌊(v.total_cargo : ℚ) * (draws i).pattern.milo_ratio⌋
        ∧ v.barley_tons = ⌊(v.total_cargo : ℚ) * (draws i).pattern.barley_ratio⌋)
    ∧ (∃ v : Voyage, (generate_sample_data 0 shortfallDraws).2[1]? = some v
        ∧ v.corn_tons + v.milo_tons + v.barley_tons ≠ v.total_cargo) := by
  constructor
  · intro now draws hv i v hvi
    obtain ⟨ship, hi, rfl⟩ := generate_voyage_shape now draws i v hvi
    have hd := (Draw.valid_iff (draws i)).mp (hv i)
    have hcap := ships_data_capacity i ship hi
    have hp := cargo_patterns_ratios (pattern_mem_of_valid (draws i) (hv i))
    have htc : (0 : ℤ) ≤ ship.capacity - (draws i).slack := by omega
    have htc' : (0 : ℚ) ≤ ((ship.capacity - (draws i).slack : ℤ) : ℚ) := by
      exact_mod_cast htc
    rw [makeVoyage_corn_tons, makeVoyage_milo_tons, makeVoyage_barley_tons,
      makeVoyage_total_cargo]
    exact ⟨pyInt_of_nonneg _ (mul_nonneg htc' hp.1),
      pyInt_of_nonneg _ (mul_nonneg htc' hp.2.2.1),
      pyInt_of_nonneg _ (mul_nonneg htc' hp.2.2.2.2.1)⟩
  · refine ⟨makeVoyage 0 1 sampleShip1 (shortfallDraws 1), rfl, ?_⟩
    have htc : sampleShip1.capacity - (shortfallDraws 1).slack = (53001 : ℤ) := rfl
    have hcr : (shortfallDraws 1).pattern.corn_ratio = 0 := rfl
    have hmr : (shortfallDraws 1).pattern.milo_ratio = 55/100 := rfl
    have hbr : (shortfallDraws 1).pattern.barley_ratio = 45/100 := rfl
    rw [makeVoyage_corn_tons, makeVoyage_milo_tons, makeVoyage_barley_tons,
      makeVoyage_total_cargo, htc, hcr, hmr, hbr]
    have e0 : pyInt (((53001 : ℤ) : ℚ) * 0) = 0 := by
      rw [mul_zero]
      simpa using pyInt_intCast 0
    have e1 : pyInt (((53001 : ℤ) : ℚ) * (55/100)) = 29150 :=
      pyInt_eval _ 29150 (by norm_num) (by norm_num) (by norm_num)
    have e2 : pyInt (((53001 : ℤ) : ℚ) * (45/100)) = 23850 :=
      pyInt_eval _ 23850 (by norm_num) (by norm_num) (by norm_num)
    rw [e0, e1, e2]
    norm_num

/-- Witness for C2: the first conjunct of the theorem instantiated at the
first catalog ship with the fixed sample draws. -/
theorem C2_witness :
    (makeVoyage 0 0 sampleShip0 (sampleDraws 0)).corn_tons
      = ⌊((makeVoyage 0 0 sampleShip0 (sampleDraws 0)).total_cargo : ℚ)
          * (sampleDraws 0).pattern.corn_ratio⌋ :=
  (C2_tonnages_are_floors.1 0 sampleDraws sampleDraws_valid 0
    (makeVoyage 0 0 sampleShip0 (sampleDraws 0)) rfl).1

/-- C5: the optimization computation at capacity 60000, ratios 0.6 and 0.3,
prices 250, 240 and 280 yields tonnages 36000, 18000 and 6000 (derived barley
ratio 0.1), revenues 9000000, 4320000 and 1680000, total revenue 15000000 and
average unit price 250. -/
theorem C5_computeMix_at_reference_input :
    computeMix 60000 (6/10) (3/10) 250 240 280
      = ⟨36000, 18000, 6000, 9000000, 4320000, 1680000, 15000000, 250⟩
    ∧ (1 - 6/10 - 3/10 : ℚ) = 1/10 := by
  have h1 : pyInt (((60000 : ℤ) : ℚ) * (6/10)) = 36000 := by
    rw [show ((60000 : ℤ) : ℚ) * (6/10) = ((36000 : ℤ) : ℚ) by norm_num]
    exact pyInt_intCast 36000
  have h2 : pyInt (((60000 : ℤ) : ℚ) * (3/10)) = 18000 := by
    rw [show ((60000 : ℤ) : ℚ) * (3/10) = ((18000 : ℤ) : ℚ) by norm_num]
    exact pyInt_intCast 18000
  have h3 : pyInt (((60000 : ℤ) : ℚ) * (1 - 6/10 - 3/10)) = 6000 := by
    rw [show ((60000 : ℤ) : ℚ) * (1 - 6/10 - 3/10) = ((6000 : ℤ) : ℚ) by norm_num]
    exact pyInt_intCast 6000
  refine ⟨?_, by norm_num⟩
  simp only [computeMix]
  rw [h1, h2, h3]
  norm_num [MixResult.mk.injEq]

/-- C6: the optimization step's mix result does not depend on the random
source, which only feeds the decorative efficiency score, and it equals the
pure `computeMix` of the explicit inputs; two runs with identical inputs
therefore return identical mix results. -/
theorem C6_computeMix_deterministic (cap : ℤ) (corn milo cp mp bp : ℚ)
    (r1 r2 : ℕ → ℤ) :
    (optimizationStep cap corn milo cp mp bp r1).1
        = (optimizationStep cap corn milo cp mp bp r2).1
    ∧ (optimizationStep cap corn milo cp mp bp r1).1
        = computeMix cap corn milo cp mp bp :=
  ⟨rfl, rfl⟩

/-- C7 (counterexample): at corn ratio 0.6 and milo ratio 0.9 — exceeding
1 − corn by 0.5, far beyond any tolerance — the source computation does not
fail: it returns a complete result with negative barley tonnage, while the
spec's checked contract demands an InvalidRatioError there. -/
theorem C7_counterexample :
    ((1 : ℚ) - 6/10 - 9/10 < -(1/1000000000))
    ∧ computeMix 60000 (6/10) (9/10) 250 240 280
        = ⟨36000, 54000, -30000, 9000000, 12960000, -8400000, 13560000, 226⟩
    ∧ computeMixChecked 60000 (6/10) (9/10) 250 240 280
        = Except.error CalcError.invalidRatio := by
  have h1 : pyInt (((60000 : ℤ) : ℚ) * (6/10)) = 36000 := by
    rw [show ((60000 : ℤ) : ℚ) * (6/10) = ((36000 : ℤ) : ℚ) by norm_num]
    exact pyInt_intCast 36000
  have h2 : pyInt (((60000 : ℤ) : ℚ) * (9/10)) = 54000 := by
    rw [show ((60000 : ℤ) : ℚ) * (9/10) = ((54000 : ℤ) : ℚ) by norm_num]
    exact pyInt_intCast 54000
  have h3 : pyInt (((60000 : ℤ) : ℚ) * (1 - 6/10 - 9/10)) = -30000 := by
    rw [show ((60000 : ℤ) : ℚ) * (1 - 6/10 - 9/10) = ((-30000 : ℤ) : ℚ) by norm_num]
    exact pyInt_intCast (-30000)
  refine ⟨by norm_num, ?_, ?_⟩
  · simp only [computeMix]
    rw [h1, h2, h3]
    norm_num [MixResult.mk.injEq]
  · unfold computeMixChecked
    rw [if_pos (by norm_num)]

/-- C7 (amended): the source computation performs no ratio validation and
never fails; whenever the capacity is positive and the milo ratio exceeds
1 − corn beyond the 1e-9 tolerance, it still returns a result, whose derived
barley ratio is negative and whose barley tonnage is non-positive.  (The UI
slider at line 197 caps the milo ratio at 1 − corn, so such inputs cannot
arise interactively.) -/
theorem C7_amended_no_ratio_validation (cap : ℤ) (corn milo cp mp bp : ℚ)
    (hcap : 0 < cap) (h : 1 - corn - milo < -(1/1000000000)) :
    1 - corn - milo < 0
    ∧ (computeMix cap corn milo cp mp bp).barley_tons ≤ 0 := by
  have hneg : 1 - corn - milo < 0 := lt_trans h (by norm_num)
  refine ⟨hneg, ?_⟩
  have hq : ((cap : ℚ)) * (1 - corn - milo) < 0 :=
    mul_neg_of_pos_of_neg (by exact_mod_cast hcap) hneg
  show pyInt ((cap : ℚ) * (1 - corn - milo)) ≤ 0
  unfold pyInt
  rw [if_neg (not_le.mpr hq)]
  exact Int.ceil_le.mpr (by exact_mod_cast le_of_lt hq)

/-- Witness for the amended C7 at the concrete counterexample input. -/
theorem C7_amended_witness :
    (1 : ℚ) - 6/10 - 9/10 < 0
    ∧ (computeMix 60000 (6/10) (9/10) 250 240 280).barley_tons ≤ 0 :=
  C7_amended_no_ratio_validation 60000 (6/10) (9/10) 250 240 280 (by norm_num)
    (by norm_num)

/-- A hypothetical small ship outside the fixed catalog, used to exhibit the
absence of a capacity check in the generation loop. -/
def testShip : Ship := ⟨"TEST_001", "TestShip", 3000, "test"⟩

/-- A draw whose slack equals the test ship's capacity. -/
def fullSlackDraw : Draw := ⟨0, 3000, 0, 5, 0⟩

/-- C8 (counterexample): running the generation loop on a ship whose capacity
equals the drawn slack (a valid draw) raises no error: it returns a complete
one-voyage list whose total cargo is 0 rather than failing. -/
theorem C8_counterexample :
    fullSlackDraw.valid = true
    ∧ testShip.capacity ≤ fullSlackDraw.slack
    ∧ (generateVoyages 0 [testShip] (fun _ => fullSlackDraw)).length = 1
    ∧ ((generateVoyages 0 [testShip] (fun _ => fullSlackDraw))[0]?).map Voyage.total_cargo
        = some 0 := by
  refine ⟨rfl, by norm_num [testShip, fullSlackDraw], rfl, ?_⟩
  rw [generateVoyages_getElem]
  simp only [List.getElem?_cons_zero, Option.map_some', makeVoyage_total_cargo]
  norm_num [testShip, fullSlackDraw]

/-- C8 (amended): the source has no capacity check and no failure path at
all; for the fixed catalog every capacity is at least 58000 while valid slack
is at most 5000, so the drawn slack is always strictly below the capacity and
every generated voyage has positive total cargo. -/
theorem C8_amended_slack_always_below_capacity (now : ℤ) (draws : ℕ → Draw)
    (hv : ∀ j, (draws j).valid = true) (i : ℕ) (ship : Ship)
    (hi : ships_data[i]? = some ship) :
    (draws i).slack < ship.capacity
    ∧ ((generate_sample_data now draws).2[i]?).map Voyage.total_cargo
        = some (ship.capacity - (draws i).slack)
    ∧ 0 < ship.capacity - (draws i).slack := by
  have hd := (Draw.valid_iff (draws i)).mp (hv i)
  have hcap := ships_data_capacity i ship hi
  refine ⟨by omega, ?_, by omega⟩
  rw [show (generate_sample_data now draws).2 = generateVoyages now ships_data draws
      from rfl, generateVoyages_getElem, hi]
  simp [makeVoyage_total_cargo]

/-- Witness for the amended C8 at the first catalog ship. -/
theorem C8_amended_witness :
    (sampleDraws 0).slack < sampleShip0.capacity
    ∧ ((generate_sample_data 0 sampleDraws).2[0]?).map Voyage.total_cargo
        = some (sampleShip0.capacity - (sampleDraws 0).slack)
    ∧ 0 < sampleShip0.capacity - (sampleDraws 0).slack :=
  C8_amended_slack_always_below_capacity 0 sampleDraws sampleDraws_valid 0
    sampleShip0 rfl

/-- C9 (counterexample): the source reads the wall clock for the ETA, so two
runs consuming the same draw stream but started at different instants produce
different outputs: the first voyage's ETA differs, hence the claimed
field-for-field identity fails. -/
theorem C9_counterexample :
    (∀ j, (sampleDraws j).valid = true)
    ∧ ((generate_sample_data 0 sampleDraws).2[0]?).map Voyage.eta = some 5
    ∧ ((generate_sample_data 1 sampleDraws).2[0]?).map Voyage.eta = some 6
    ∧ generate_sample_data 0 sampleDraws ≠ generate_sample_data 1 sampleDraws := by
  have e0 : ((generate_sample_data 0 sampleDraws).2[0]?).map Voyage.eta = some 5 := rfl
  have e1 : ((generate_sample_data 1 sampleDraws).2[0]?).map Voyage.eta = some 6 := rfl
  refine ⟨sampleDraws_valid, e0, e1, ?_⟩
  intro h
  rw [h, e1] at e0
  exact absurd (Option.some_inj.mp e0) (by norm_num)

lemma eraseEta_makeVoyage (now1 now2 : ℤ) (i : ℕ) (ship : Ship) (d : Draw) :
    eraseEta (makeVoyage now1 i ship d) = eraseEta (makeVoyage now2 i ship d) := rfl

lemma generateVoyagesFrom_eraseEta (now1 now2 : ℤ) (draws : ℕ → Draw) :
    ∀ (catalog : List Ship) (i0 : ℕ),
      (generateVoyagesFrom now1 draws i0 catalog).map eraseEta
        = (generateVoyagesFrom now2 draws i0 catalog).map eraseEta := by
  intro catalog
  induction catalog with
  | nil => intro i0; rfl
  | cons s rest ih =>
      intro i0
      simp only [generateVoyagesFrom, List.map_cons]
      rw [eraseEta_makeVoyage now1 now2, ih (i0 + 1)]

/-- C9 (amended): with the clock reading made an explicit input, the
generator is a function of the draw stream and the timestamp alone: two runs
with the same draws yield the same ship table and voyage tables that agree on
every field except the ETA, and each voyage's ETA is exactly the run's
timestamp plus the drawn day offset. -/
theorem C9_amended_reproducible_up_to_eta (now1 now2 : ℤ) (draws : ℕ → Draw) :
    (generate_sample_data now1 draws).1 = (generate_sample_data now2 draws).1
    ∧ (generate_sample_data now1 draws).2.map eraseEta
        = (generate_sample_data now2 draws).2.map eraseEta
    ∧ ∀ (i : ℕ), ((generate_sample_data now1 draws).2[i]?).map Voyage.eta
        = (ships_data[i]?).map fun _ => now1 + (draws i).days := by
  refine ⟨rfl, generateVoyagesFrom_eraseEta now1 now2 draws ships_data 0, ?_⟩
  intro i
  rw [show (generate_sample_data now1 draws).2 = generateVoyages now1 ships_data draws
      from rfl, generateVoyages_getElem]
  cases hs : ships_data[i]? <;> simp [makeVoyage_eta]

end ShippingPoC
